import Mathlib

/-!
Verification development for the GP_AI_Full repository.

Each Python component relevant to the checked properties is shallowly
embedded as executable Lean definitions: pure functions become Lean
functions, stateful services become explicit state passing, Python
exceptions become `Except` error values, and floating-point quantities
whose exact values matter only through exact integer/rational arithmetic
are modelled as `Int`/`Rat`.
-/

namespace MLOps

/-- Issue severities as carried by `Issue.severity` in
`mlops-checker-agent/agents/mlops_checker.py`; the checker only ever
constructs "critical", "warning" and "info". -/
abbrev Severity := String

/-- Embedding of `MLOpsChecker._calculate_readiness_score`
(`agents/mlops_checker.py` lines 268-280): start from 100, subtract
20 per critical issue, 10 per warning, 5 per info, clamp at 0 at the end.
The Python floats only ever hold small integers here, so `Int` is exact. -/
def calculate_readiness_score (issues : List Severity) : Int :=
  max 0 (issues.foldl
    (fun acc s =>
      if s = "critical" then acc - 20
      else if s = "warning" then acc - 10
      else if s = "info" then acc - 5
      else acc)
    100)

/-- The fold over issues subtracts exactly 20/10/5 per matching severity. -/
theorem readiness_foldl_counts (issues : List Severity) (a : Int) :
    issues.foldl
      (fun acc s =>
        if s = "critical" then acc - 20
        else if s = "warning" then acc - 10
        else if s = "info" then acc - 5
        else acc)
      a
    = a - 20 * (issues.count "critical" : Int)
        - 10 * (issues.count "warning" : Int)
        - 5 * (issues.count "info" : Int) := by
  induction issues generalizing a with
  | nil => simp
  | cons hd tl ih =>
    rw [List.foldl_cons, ih]
    by_cases h1 : hd = "critical"
    · subst h1
      rw [if_pos rfl, List.count_cons_self,
        List.count_cons_of_ne (by decide : ("warning" : String) ≠ "critical"),
        List.count_cons_of_ne (by decide : ("info" : String) ≠ "critical")]
      push_cast
      ring
    · by_cases h2 : hd = "warning"
      · subst h2
        rw [if_neg h1, if_pos rfl, List.count_cons_self,
          List.count_cons_of_ne (by decide : ("critical" : String) ≠ "warning"),
          List.count_cons_of_ne (by decide : ("info" : String) ≠ "warning")]
        push_cast
        ring
      · by_cases h3 : hd = "info"
        · subst h3
          rw [if_neg h1, if_neg h2, if_pos rfl, List.count_cons_self,
            List.count_cons_of_ne (by decide : ("critical" : String) ≠ "info"),
            List.count_cons_of_ne (by decide : ("warning" : String) ≠ "info")]
          push_cast
          ring
        · rw [if_neg h1, if_neg h2, if_neg h3,
            List.count_cons_of_ne (fun e => h1 e.symm),
            List.count_cons_of_ne (fun e => h2 e.symm),
            List.count_cons_of_ne (fun e => h3 e.symm)]

end MLOps

namespace MockStream

/-- One entry of `DataIngestionService.active_streams`
(`EEG-YCombinator/services.py`): stream id, active flag, start time. -/
structure StreamInfo where
  stream_id : String
  active : Bool
  start_time : Int
  deriving DecidableEq, Repr

/-- The `active_streams` dict, as an association list keyed by patient id. -/
abbrev Streams := List (String × StreamInfo)

/-- Embedding of `DataIngestionService.start_mock_stream`
(`services.py` lines 233-254): raises `ValueError` on a duplicate start,
otherwise records the handle and returns the stream id.  `now` stands
for `int(time.time())`. -/
def start_mock_stream (streams : Streams) (patient_id : String) (now : Int) :
    Except String (Streams × String) :=
  if (streams.lookup patient_id).isSome then
    .error ("Stream already active for patient " ++ patient_id)
  else
    let stream_id := "stream_" ++ patient_id ++ "_" ++ toString now
    .ok (streams ++ [(patient_id, ⟨stream_id, true, now⟩)], stream_id)

/-- Embedding of `DataIngestionService.stop_mock_stream`
(`services.py` lines 256-262): if the patient has an entry, set its
active flag false and delete the entry (net effect: the key is removed);
either way the call returns normally. -/
def stop_mock_stream (streams : Streams) (patient_id : String) : Streams :=
  if (streams.lookup patient_id).isSome then
    streams.filter (fun p => p.1 ≠ patient_id)
  else
    streams

theorem lookup_filter_ne (streams : Streams) (pid : String) :
    (streams.filter (fun p => p.1 ≠ pid)).lookup pid = none := by
  induction streams with
  | nil => simp
  | cons hd tl ih =>
    by_cases h : hd.1 = pid
    · simp only [List.filter_cons]
      have hb : (decide (hd.1 ≠ pid)) = false := by simpa using h
      rw [hb]
      exact ih
    · simp only [List.filter_cons]
      have hb : (decide (hd.1 ≠ pid)) = true := by simpa using h
      rw [hb]
      have hpk : (pid == hd.1) = false := beq_eq_false_iff_ne.mpr (Ne.symm h)
      simp only [List.lookup, hpk]
      exact ih

theorem lookup_stop_none (streams : Streams) (pid : String) :
    (stop_mock_stream streams pid).lookup pid = none := by
  unfold stop_mock_stream
  by_cases h : (streams.lookup pid).isSome
  · rw [if_pos h]
    exact lookup_filter_ne streams pid
  · rw [if_neg h]
    exact Option.not_isSome_iff_eq_none.mp h

end MockStream

namespace MNISTLoader

/-- The validated constructor arguments of `MNISTDataLoader.__init__`
(`toyota_interview/src/data/data_loader.py` lines 27-72).
`validation_split` is a Python float compared against exact constants
0.0 and 1.0; it is modelled as a rational. -/
structure LoaderConfig where
  batch_size : Int
  validation_split : Rat
  num_workers : Int
  deriving DecidableEq, Repr

/-- Embedding of `MNISTDataLoader._validate_parameters`
(`data_loader.py` lines 63-72), checked in source order. -/
def validate_parameters (c : LoaderConfig) : Except String Unit :=
  if c.batch_size ≤ 0 then
    .error "Batch size must be positive"
  else if ¬ (0 ≤ c.validation_split ∧ c.validation_split ≤ 1) then
    .error "Validation split must be between 0 and 1"
  else if c.num_workers < 0 then
    .error "Number of workers cannot be negative"
  else
    .ok ()

/-- Side effects performed by `MNISTDataLoader.__init__` after parameter
validation, in source order. -/
inductive InitStep where
  | validated
  | data_directory_setup
  | transforms_setup
  deriving DecidableEq, Repr

/-- Embedding of the `MNISTDataLoader.__init__` sequencing
(`data_loader.py` lines 49-58): `_validate_parameters` runs first; only
on success do `_setup_data_directory` and `_setup_transforms` run.  The
returned list records the effects performed, in order (the directory and
transform steps are modelled as succeeding; their own failure modes are
environmental and not at issue here). -/
def mnist_init (c : LoaderConfig) : List InitStep × Except String Unit :=
  match validate_parameters c with
  | .error e => ([], .error e)
  | .ok _ =>
      ([.validated, .data_directory_setup, .transforms_setup], .ok ())

end MNISTLoader

/-- C8: For every MLOps check run, the deployment-readiness score equals
max(0, 100 - 20*criticals - 10*warnings - 5*infos); in particular one
critical, one warning and one info score 65. -/
theorem mlops_readiness_score_formula (issues : List MLOps.Severity) :
    MLOps.calculate_readiness_score issues
      = max 0 (100 - 20 * (issues.count "critical" : Int)
                 - 10 * (issues.count "warning" : Int)
                 - 5 * (issues.count "info" : Int))
    ∧ MLOps.calculate_readiness_score ["critical", "warning", "info"] = 65 := by
  constructor
  · unfold MLOps.calculate_readiness_score
    rw [MLOps.readiness_foldl_counts]
  · rfl

/-- C10: stopping a mock stream never fails: on an id with no active
stream it leaves the map unchanged, after any stop the id holds no
active-stream handle, stopping twice equals stopping once; in contrast,
a duplicate start fails. -/
theorem stop_mock_stream_ok (streams : MockStream.Streams) (pid : String)
    (now : Int) :
    ((streams.lookup pid) = none → MockStream.stop_mock_stream streams pid = streams)
    ∧ (MockStream.stop_mock_stream streams pid).lookup pid = none
    ∧ MockStream.stop_mock_stream (MockStream.stop_mock_stream streams pid) pid
        = MockStream.stop_mock_stream streams pid
    ∧ ((streams.lookup pid).isSome →
        ∃ e, MockStream.start_mock_stream streams pid now = .error e) := by
  refine ⟨?_, MockStream.lookup_stop_none streams pid, ?_, ?_⟩
  · intro h
    unfold MockStream.stop_mock_stream
    rw [if_neg (by simp [h])]
  · have h2 := MockStream.lookup_stop_none streams pid
    unfold MockStream.stop_mock_stream at h2 ⊢
    rw [h2]
    simp
  · intro h
    refine ⟨"Stream already active for patient " ++ pid, ?_⟩
    unfold MockStream.start_mock_stream
    rw [if_pos h]

/-- C10 witness: concrete evaluation of the stop/start contract. -/
theorem stop_mock_stream_ok_witness :
    (MockStream.stop_mock_stream
        [("p1", ⟨"stream_p1_0", true, 0⟩)] "p1").lookup "p1" = none
    ∧ (∃ e, MockStream.start_mock_stream
        [("p1", ⟨"stream_p1_0", true, 0⟩)] "p1" 0 = .error e) :=
  ⟨(stop_mock_stream_ok [("p1", ⟨"stream_p1_0", true, 0⟩)] "p1" 0).2.1,
   (stop_mock_stream_ok [("p1", ⟨"stream_p1_0", true, 0⟩)] "p1" 0).2.2.2
     (by decide)⟩

/-- C9: constructing the MNIST loader with a non-positive batch size, a
validation split outside [0,1], or a negative worker count fails at
construction with a ValidationError before any directory or dataset
access (no init step performed); a configuration with positive batch
size, split in [0,1] and non-negative workers passes validation. -/
theorem mnist_loader_validation (c : MNISTLoader.LoaderConfig) :
    ((c.batch_size ≤ 0 ∨ c.validation_split < 0 ∨ 1 < c.validation_split
        ∨ c.num_workers < 0) →
      ∃ e, MNISTLoader.mnist_init c = ([], .error e))
    ∧ ((0 < c.batch_size ∧ 0 ≤ c.validation_split ∧ c.validation_split ≤ 1
        ∧ 0 ≤ c.num_workers) →
      MNISTLoader.validate_parameters c = .ok ()) := by
  constructor
  · intro h
    unfold MNISTLoader.mnist_init MNISTLoader.validate_parameters
    by_cases h1 : c.batch_size ≤ 0
    · rw [if_pos h1]
      exact ⟨"Batch size must be positive", rfl⟩
    · by_cases h2 : ¬ (0 ≤ c.validation_split ∧ c.validation_split ≤ 1)
      · rw [if_neg h1, if_pos h2]
        exact ⟨"Validation split must be between 0 and 1", rfl⟩
      · have h3 : c.num_workers < 0 := by
          push_neg at h2
          rcases h with h | h | h | h
          · exact absurd h h1
          · exact absurd h2.1 (not_le.mpr h)
          · exact absurd h2.2 (not_le.mpr h)
          · exact h
        rw [if_neg h1, if_neg h2, if_pos h3]
        exact ⟨"Number of workers cannot be negative", rfl⟩
  · rintro ⟨h1, h2, h3, h4⟩
    unfold MNISTLoader.validate_parameters
    rw [if_neg (not_le.mpr h1), if_neg (not_not_intro ⟨h2, h3⟩),
      if_neg (not_lt.mpr h4)]

/-- C9 witness: batch_size 0 is rejected with no effect performed, and
the default configuration (64, 0.1, 4) passes validation. -/
theorem mnist_loader_validation_witness :
    (∃ e, MNISTLoader.mnist_init ⟨0, 1/10, 4⟩ = ([], .error e))
    ∧ MNISTLoader.validate_parameters ⟨64, 1/10, 4⟩ = .ok () :=
  ⟨(mnist_loader_validation ⟨0, 1/10, 4⟩).1 (by norm_num),
   (mnist_loader_validation ⟨64, 1/10, 4⟩).2 (by norm_num)⟩

namespace MCP

/-- A tool handler (`mcp-ai-agent/mcp_base.py`): kwargs in, result out;
a handler that raises is modelled as `Except.error`. -/
abbrev Handler := List (String × String) → Except String String

/-- A registered tool (`MCPServer.add_tool`, `mcp_base.py` lines 24-31);
the description/parameters fields are irrelevant to execution. -/
structure Tool where
  description : String
  handler : Handler

/-- An MCP server: name plus its `tools` dict in insertion order. -/
structure Server where
  name : String
  tools : List (String × Tool)

/-- The dictionary returned by `execute_tool`: present keys are `some`. -/
structure ExecResult where
  success : Bool
  result : Option String
  error : Option String
  tool : Option String
  server : Option String
  deriving DecidableEq, Repr

/-- Embedding of `MCPServer.execute_tool` (`mcp_base.py` lines 52-74). -/
def Server.execute_tool (srv : Server) (tool_name : String)
    (kwargs : List (String × String)) : ExecResult :=
  match srv.tools.lookup tool_name with
  | none =>
      { success := false, result := none,
        error := some ("Tool '" ++ tool_name ++ "' not found in server '"
          ++ srv.name ++ "'"),
        tool := none, server := none }
  | some t =>
      match t.handler kwargs with
      | .ok r =>
          { success := true, result := some r, error := none,
            tool := some tool_name, server := some srv.name }
      | .error e =>
          { success := false, result := none,
            error := some ("Error executing " ++ tool_name ++ ": " ++ e),
            tool := some tool_name, server := some srv.name }

/-- `MCPRegistry.servers`, in registration order. -/
structure Registry where
  servers : List Server

/-- Embedding of `MCPRegistry.execute_tool` (`mcp_base.py` lines 94-103):
the first registered server whose tools contain the name executes it. -/
def Registry.execute_tool (reg : Registry) (tool_name : String)
    (kwargs : List (String × String)) : ExecResult :=
  match reg.servers.find? (fun s => (s.tools.lookup tool_name).isSome) with
  | some srv => srv.execute_tool tool_name kwargs
  | none =>
      { success := false, result := none,
        error := some ("Tool '" ++ tool_name
          ++ "' not found in any registered server"),
        tool := none, server := none }

/-- A server-level execution always lands in one of the structured
shapes: success carrying result, tool and server, or failure carrying
an error and no result. -/
theorem server_execute_shapes (srv : Server) (name : String)
    (kwargs : List (String × String)) :
    (∃ res, srv.execute_tool name kwargs
        = ⟨true, some res, none, some name, some srv.name⟩)
    ∨ (∃ err, (srv.execute_tool name kwargs).success = false
        ∧ (srv.execute_tool name kwargs).error = some err
        ∧ (srv.execute_tool name kwargs).result = none) := by
  cases hl : srv.tools.lookup name with
  | none =>
      right
      refine ⟨"Tool '" ++ name ++ "' not found in server '" ++ srv.name ++ "'",
        ?_, ?_, ?_⟩ <;>
        simp [Server.execute_tool, hl]
  | some t =>
      cases hr : t.handler kwargs with
      | ok r =>
          left
          exact ⟨r, by simp [Server.execute_tool, hl, hr]⟩
      | error e =>
          right
          refine ⟨"Error executing " ++ name ++ ": " ++ e, ?_, ?_, ?_⟩ <;>
            simp [Server.execute_tool, hl, hr]

/-- A registry-level execution lands in the same structured shapes. -/
theorem registry_execute_shapes (reg : Registry) (name : String)
    (kwargs : List (String × String)) :
    (∃ res srvn, reg.execute_tool name kwargs
        = ⟨true, some res, none, some name, some srvn⟩)
    ∨ (∃ err, (reg.execute_tool name kwargs).success = false
        ∧ (reg.execute_tool name kwargs).error = some err
        ∧ (reg.execute_tool name kwargs).result = none) := by
  cases hf : reg.servers.find? (fun s => (s.tools.lookup name).isSome) with
  | none =>
      right
      refine ⟨"Tool '" ++ name ++ "' not found in any registered server",
        ?_, ?_, ?_⟩ <;>
        simp [Registry.execute_tool, hf]
  | some srv =>
      rcases server_execute_shapes srv name kwargs with ⟨res, h⟩
        | ⟨err, h1, h2, h3⟩
      · left
        exact ⟨res, srv.name, by simp [Registry.execute_tool, hf, h]⟩
      · right
        refine ⟨err, ?_, ?_, ?_⟩ <;>
          simp [Registry.execute_tool, hf] <;>
          assumption

end MCP

/-- C7: every tool invocation through `MCPServer.execute_tool` or
`MCPRegistry.execute_tool` returns a structured result and never
propagates an exception: success yields {success, result, tool, server};
a raising handler yields {success:false, error, tool, server}; a name
registered by no server yields a {success:false, error} naming the tool. -/
theorem mcp_execute_tool_structured (reg : MCP.Registry) (srv : MCP.Server)
    (name : String) (kwargs : List (String × String)) :
    ((∃ res, srv.execute_tool name kwargs
        = ⟨true, some res, none, some name, some srv.name⟩)
      ∨ (∃ err, (srv.execute_tool name kwargs).success = false
          ∧ (srv.execute_tool name kwargs).error = some err
          ∧ (srv.execute_tool name kwargs).result = none))
    ∧ ((∃ res srvn, reg.execute_tool name kwargs
        = ⟨true, some res, none, some name, some srvn⟩)
      ∨ (∃ err, (reg.execute_tool name kwargs).success = false
          ∧ (reg.execute_tool name kwargs).error = some err
          ∧ (reg.execute_tool name kwargs).result = none))
    ∧ ((∀ s ∈ reg.servers, s.tools.lookup name = none) →
        reg.execute_tool name kwargs
          = ⟨false, none,
              some ("Tool '" ++ name ++ "' not found in any registered server"),
              none, none⟩) := by
  refine ⟨MCP.server_execute_shapes srv name kwargs,
    MCP.registry_execute_shapes reg name kwargs, ?_⟩
  intro h
  unfold MCP.Registry.execute_tool
  rw [List.find?_eq_none.mpr (fun s hs => by simp [h s hs])]

/-- C7 witness: executing an unregistered tool name on an empty registry
returns the structured not-found failure naming the tool. -/
theorem mcp_execute_tool_structured_witness :
    MCP.Registry.execute_tool ⟨[]⟩ "missing" []
      = ⟨false, none,
          some "Tool 'missing' not found in any registered server",
          none, none⟩ :=
  (mcp_execute_tool_structured ⟨[]⟩ ⟨"calc", []⟩ "missing" []).2.2
    (by simp)

namespace Ingest

/-- A stored `DataIngestion` row (`EEG-YCombinator/models.py` /
`services.py` lines 160-167). -/
structure DataIngestionRecord where
  patient_id : String
  timestamp : Int
  channels : Nat
  samples : Nat
  anomaly_count : Nat
  adr_mean : Rat
  deriving DecidableEq, Repr

/-- One entry of the notification accumulator
(`services.py` lines 211-221). -/
structure NotifEntry where
  timestamp : Int
  anomaly_count : Nat
  adr_mean : Rat
  total_samples : Nat
  deriving DecidableEq, Repr

/-- The persistent and in-memory state touched by
`DataIngestionService.ingest_data`: registered patients (with their
`last_data_received`), stored ingestion rows, and the notification
buffer. -/
structure IngestState where
  patients : List (String × Option Int)
  ingestions : List DataIngestionRecord
  notification_accumulator : List (String × List NotifEntry)
  deriving DecidableEq, Repr

/-- Output of `_process_eeg_data` (`services.py` lines 193-209).  The
numeric values come from `calculate_adr` (scipy floating point) and
`model_binary_example` (random); they are supplied abstractly by a
`process` parameter since only the bookkeeping around them is at issue. -/
structure ProcResults where
  adr_mean : Rat
  anomaly_count : Nat
  total_samples : Nat

/-- The success payload of `ingest_data` (`services.py` lines 182-187). -/
structure IngestResponse where
  status : String
  anomaly_count : Nat
  adr_mean : Rat
  samples_processed : Nat
  deriving DecidableEq, Repr

/-- `PatientService.update_last_data_received` (`services.py` 55-60). -/
def setLastDataReceived (patients : List (String × Option Int))
    (pid : String) (ts : Int) : List (String × Option Int) :=
  patients.map (fun p => if p.1 = pid then (p.1, some ts) else p)

/-- `DataIngestionService._add_to_notification_buffer`
(`services.py` lines 211-221). -/
def appendNotif (acc : List (String × List NotifEntry)) (pid : String)
    (e : NotifEntry) : List (String × List NotifEntry) :=
  if (acc.lookup pid).isSome then
    acc.map (fun p => if p.1 = pid then (p.1, p.2 ++ [e]) else p)
  else
    acc ++ [(pid, [e])]

/-- Embedding of `DataIngestionService.ingest_data`
(`services.py` lines 140-191).  The input array enters only through its
shape (`data.shape`, a list of dimensions) and through `process`
(standing for `_process_eeg_data`); `now` stands for the
`datetime.utcnow()` stamped on the buffer entry.  A raised `ValueError`
becomes an `Except.error` carrying the exception message, with the
state returned unchanged since nothing was mutated before the raise. -/
def ingest_data (process : List Nat → ProcResults) (st : IngestState)
    (patient_id : String) (timestamp : Int) (now : Int) (shape : List Nat) :
    IngestState × Except String IngestResponse :=
  if (st.patients.lookup patient_id).isNone then
    (st, .error ("Patient " ++ patient_id ++ " not found"))
  else if shape.length ≠ 2 then
    (st, .error "Data must be 2D array [channels x samples]")
  else if shape.getD 0 0 ≠ 21 then
    (st, .error "Expected 21 EEG channels")
  else
    let pr := process shape
    let ingestion : DataIngestionRecord :=
      { patient_id := patient_id, timestamp := timestamp,
        channels := shape.getD 0 0, samples := shape.getD 1 0,
        anomaly_count := pr.anomaly_count, adr_mean := pr.adr_mean }
    let st1 : IngestState :=
      { patients := setLastDataReceived st.patients patient_id timestamp,
        ingestions := st.ingestions ++ [ingestion],
        notification_accumulator :=
          appendNotif st.notification_accumulator patient_id
            ⟨now, pr.anomaly_count, pr.adr_mean, pr.total_samples⟩ }
    (st1, .ok { status := "success", anomaly_count := pr.anomaly_count,
                adr_mean := pr.adr_mean,
                samples_processed := shape.getD 1 0 })

end Ingest

/-- C2: an ingestion request whose data array is not 2-D or does not
have exactly 21 rows fails with a ValueError (surfaced as HTTP 400 /
InvalidInput) and is atomic: no ingestion row is stored, the patient's
last_data_received is unchanged, and no notification-buffer entry is
appended. -/
theorem ingest_data_rejects_bad_shape (process : List Nat → Ingest.ProcResults)
    (st : Ingest.IngestState) (pid : String) (ts now : Int) (shape : List Nat)
    (h : shape.length ≠ 2 ∨ shape.getD 0 0 ≠ 21) :
    (∃ msg, Ingest.ingest_data process st pid ts now shape = (st, .error msg))
    ∧ (Ingest.ingest_data process st pid ts now shape).1.ingestions
        = st.ingestions
    ∧ (Ingest.ingest_data process st pid ts now shape).1.patients
        = st.patients
    ∧ (Ingest.ingest_data process st pid ts now shape).1.notification_accumulator
        = st.notification_accumulator := by
  have key : ∃ msg,
      Ingest.ingest_data process st pid ts now shape = (st, .error msg) := by
    unfold Ingest.ingest_data
    by_cases hp : (st.patients.lookup pid).isNone
    · rw [if_pos hp]
      exact ⟨"Patient " ++ pid ++ " not found", rfl⟩
    · rw [if_neg hp]
      by_cases hl : shape.length ≠ 2
      · rw [if_pos hl]
        exact ⟨"Data must be 2D array [channels x samples]", rfl⟩
      · rcases h with h | h
        · exact absurd h hl
        · rw [if_neg hl, if_pos h]
          exact ⟨"Expected 21 EEG channels", rfl⟩
  obtain ⟨msg, he⟩ := key
  exact ⟨⟨msg, he⟩, by rw [he], by rw [he], by rw [he]⟩

/-- C2 witness: a 20-channel 2-D array for a registered patient is
rejected with the state untouched. -/
theorem ingest_data_rejects_bad_shape_witness :
    ∃ msg, Ingest.ingest_data (fun _ => ⟨0, 0, 0⟩)
        ⟨[("p1", none)], [], []⟩ "p1" 0 0 [20, 100]
      = (⟨[("p1", none)], [], []⟩, .error msg) :=
  (ingest_data_rejects_bad_shape (fun _ => ⟨0, 0, 0⟩)
    ⟨[("p1", none)], [], []⟩ "p1" 0 0 [20, 100] (by decide)).1

namespace Patient

/-- A `DataIngestion` row as consumed by
`PatientService._get_recent_statistics` (`services.py` lines 90-110). -/
structure RecentRecord where
  timestamp : Int
  adr_mean : Option Rat
  anomaly_count : Nat
  deriving DecidableEq, Repr

/-- The statistics dict built by `_get_recent_statistics`; the empty
dict returned when no recent rows exist is modelled as `none`. -/
structure RecentStats where
  adr_mean : Option Rat
  anomaly_count : Nat
  data_points : Nat
  deriving DecidableEq, Repr

/-- The rows of the trailing window: `DataIngestion.timestamp >= cutoff`
(`services.py` lines 92-97, with `cutoff = utcnow() - 24h`). -/
def recentOf (records : List RecentRecord) (cutoff : Int) :
    List RecentRecord :=
  records.filter (fun r => cutoff ≤ r.timestamp)

/-- Arithmetic mean, standing in for `np.mean` over the ADR values
(the exact value is irrelevant to the health status). -/
def ratMean (xs : List Rat) : Rat := xs.sum / xs.length

/-- Embedding of `PatientService._get_recent_statistics`
(`services.py` lines 90-110). -/
def get_recent_statistics (records : List RecentRecord) (cutoff : Int) :
    Option RecentStats :=
  let recent := recentOf records cutoff
  if recent = [] then none
  else
    let adr_values := recent.filterMap (fun r => r.adr_mean)
    some { adr_mean := if adr_values = [] then none
             else some (ratMean adr_values),
           anomaly_count := (recent.map (fun r => r.anomaly_count)).sum,
           data_points := recent.length }

/-- Embedding of `PatientService._determine_health_status`
(`services.py` lines 112-128). -/
def determine_health_status (stats : Option RecentStats) : String :=
  match stats with
  | none => "unknown"
  | some s =>
      let anomaly_rate : Rat :=
        (s.anomaly_count : Rat) / ((max s.data_points 1 : Nat) : Rat)
      if anomaly_rate > 15/100 then "critical"
      else if anomaly_rate > 8/100 then "warning"
      else "normal"

/-- The anomaly rate over a window: total anomalies / data points. -/
def anomalyRate (recent : List RecentRecord) : Rat :=
  ((recent.map (fun r => r.anomaly_count)).sum : Rat) / (recent.length : Rat)

/-- On a present statistics dict the three status levels are exactly the
rate bands >0.15, (0.08, 0.15], and ≤0.08. -/
theorem determine_health_status_some (s : RecentStats) (rate : Rat)
    (hr : rate
      = (s.anomaly_count : Rat) / ((max s.data_points 1 : Nat) : Rat)) :
    (determine_health_status (some s) = "critical" ↔ rate > 15/100)
    ∧ (determine_health_status (some s) = "warning"
      ↔ (8/100 < rate ∧ rate ≤ 15/100))
    ∧ (determine_health_status (some s) = "normal" ↔ rate ≤ 8/100) := by
  by_cases h1 : rate > 15/100
  · simp only [determine_health_status, ← hr, if_pos h1]
    refine ⟨by simp [h1], ?_, ?_⟩
    · constructor
      · intro h; exact absurd h (by decide)
      · rintro ⟨_, hle⟩; exact absurd h1 (not_lt.mpr hle)
    · constructor
      · intro h; exact absurd h (by decide)
      · intro hle
        exact absurd h1 (not_lt.mpr (le_trans hle (by norm_num)))
  · by_cases h2 : rate > 8/100
    · simp only [determine_health_status, ← hr, if_neg h1, if_pos h2]
      refine ⟨?_, ?_, ?_⟩
      · constructor
        · intro h; exact absurd h (by decide)
        · intro h; exact absurd h h1
      · simp [h2, not_lt.mp h1]
      · constructor
        · intro h; exact absurd h (by decide)
        · intro hle; exact absurd h2 (not_lt.mpr hle)
    · simp only [determine_health_status, ← hr, if_neg h1, if_neg h2]
      refine ⟨?_, ?_, ?_⟩
      · constructor
        · intro h; exact absurd h (by decide)
        · intro h; exact absurd h h1
      · constructor
        · intro h; exact absurd h (by decide)
        · rintro ⟨hgt, _⟩; exact absurd hgt h2
      · simp [not_lt.mp h2]

end Patient

/-- C3: for a patient with at least one ingestion row in the trailing
window the summary health status is "critical" exactly when the anomaly
rate (anomalies / data points) exceeds 0.15, "warning" exactly when it
is in (0.08, 0.15], and "normal" exactly when it is at most 0.08; with
no rows in the window it is "unknown". -/
theorem patient_health_status (records : List Patient.RecentRecord)
    (cutoff : Int) :
    ((Patient.recentOf records cutoff ≠ []) →
      ((Patient.determine_health_status
          (Patient.get_recent_statistics records cutoff) = "critical"
        ↔ Patient.anomalyRate (Patient.recentOf records cutoff) > 15/100)
      ∧ (Patient.determine_health_status
          (Patient.get_recent_statistics records cutoff) = "warning"
        ↔ (8/100 < Patient.anomalyRate (Patient.recentOf records cutoff)
            ∧ Patient.anomalyRate (Patient.recentOf records cutoff)
              ≤ 15/100))
      ∧ (Patient.determine_health_status
          (Patient.get_recent_statistics records cutoff) = "normal"
        ↔ Patient.anomalyRate (Patient.recentOf records cutoff) ≤ 8/100)))
    ∧ (Patient.recentOf records cutoff = [] →
        Patient.determine_health_status
          (Patient.get_recent_statistics records cutoff) = "unknown") := by
  constructor
  · intro hne
    have hlen : 1 ≤ (Patient.recentOf records cutoff).length :=
      List.length_pos.mpr hne
    have hmax : max (Patient.recentOf records cutoff).length 1
        = (Patient.recentOf records cutoff).length := Nat.max_eq_left hlen
    have hstat : Patient.get_recent_statistics records cutoff
        = some
            { adr_mean := if (Patient.recentOf records cutoff).filterMap
                  (fun r => r.adr_mean) = [] then none
                else some (Patient.ratMean
                  ((Patient.recentOf records cutoff).filterMap
                    (fun r => r.adr_mean))),
              anomaly_count := ((Patient.recentOf records cutoff).map
                (fun r => r.anomaly_count)).sum,
              data_points := (Patient.recentOf records cutoff).length } := by
      unfold Patient.get_recent_statistics
      simp only [if_neg hne]
    rw [hstat]
    exact Patient.determine_health_status_some
      { adr_mean := if (Patient.recentOf records cutoff).filterMap
            (fun r => r.adr_mean) = [] then none
          else some (Patient.ratMean
            ((Patient.recentOf records cutoff).filterMap
              (fun r => r.adr_mean))),
        anomaly_count := ((Patient.recentOf records cutoff).map
          (fun r => r.anomaly_count)).sum,
        data_points := (Patient.recentOf records cutoff).length }
      (Patient.anomalyRate (Patient.recentOf records cutoff))
      (by
        simp only [Patient.anomalyRate, hmax, Nat.cast_list_sum, List.map_map]
        rfl)
  · intro he
    unfold Patient.get_recent_statistics
    simp only [if_pos he]
    rfl

/-- C3 witness: one in-window row with 1 anomaly gives rate 1 > 0.15,
hence "critical"; an empty window gives "unknown". -/
theorem patient_health_status_witness :
    (Patient.determine_health_status
      (Patient.get_recent_statistics [⟨5, none, 1⟩] 0) = "critical")
    ∧ (Patient.determine_health_status
      (Patient.get_recent_statistics [] 0) = "unknown") :=
  ⟨((patient_health_status [⟨5, none, 1⟩] 0).1 (by decide)).1.mpr (by
      norm_num [Patient.anomalyRate, Patient.recentOf]),
   (patient_health_status [] 0).2 (by decide)⟩

namespace Stats

/-- A `DataIngestion` row as consumed by
`StatisticsService.compute_statistics` (`services.py` lines 305-348). -/
structure StatRecord where
  timestamp : Int
  adr_mean : Option Rat
  anomaly_count : Nat
  samples : Nat
  deriving DecidableEq, Repr

/-- The `adr` summary block {mean, std, min, max, count}.  Its numeric
entries come from numpy floating-point reductions, so the block is
produced by an abstract `adrSummary` parameter; only its presence or
absence matters to the properties below. -/
structure AdrBlock where
  mean : Rat
  std : Rat
  min : Rat
  max : Rat
  count : Nat
  deriving DecidableEq, Repr

/-- The `anomalies` summary block (`services.py` lines 331-340). -/
structure AnomBlock where
  total_anomalies : Nat
  total_samples : Nat
  anomaly_rate : Rat
  data_points : Nat
  deriving DecidableEq, Repr

/-- The echoed `time_range` block (`services.py` lines 342-346); `end_`
stands for the Python key `end`. -/
structure TimeRange where
  start : Int
  end_ : Int
  duration_hours : Rat
  deriving DecidableEq, Repr

/-- The result dict of `compute_statistics`: keys that may be absent are
`Option`s. -/
structure StatsResult where
  message : Option String
  adr : Option AdrBlock
  anomalies : Option AnomBlock
  time_range : Option TimeRange
  deriving DecidableEq, Repr

/-- The rows matching `start_time <= timestamp <= end_time`
(`services.py` lines 309-313; the `order_by` does not affect any field
computed from them). -/
def recordsInRange (records : List StatRecord) (start_time end_time : Int) :
    List StatRecord :=
  records.filter (fun r => start_time ≤ r.timestamp ∧ r.timestamp ≤ end_time)

/-- Embedding of `StatisticsService.compute_statistics`
(`services.py` lines 305-348). -/
def compute_statistics (adrSummary : List Rat → AdrBlock)
    (records : List StatRecord) (start_time end_time : Int)
    (metrics : List String) : StatsResult :=
  let data_records := recordsInRange records start_time end_time
  if data_records = [] then
    { message := some "No data available for the specified time range",
      adr := none, anomalies := none, time_range := none }
  else
    let adr :=
      if "adr" ∈ metrics then
        let adr_values := data_records.filterMap (fun r => r.adr_mean)
        if adr_values = [] then none else some (adrSummary adr_values)
      else none
    let anomalies :=
      if "anomalies" ∈ metrics then
        let total_anomalies := (data_records.map
          (fun r => r.anomaly_count)).sum
        let total_samples := (data_records.map (fun r => r.samples)).sum
        some { total_anomalies := total_anomalies,
               total_samples := total_samples,
               anomaly_rate := if 0 < total_samples then
                   (total_anomalies : Rat) / (total_samples : Rat)
                 else 0,
               data_points := data_records.length }
      else none
    { message := none, adr := adr, anomalies := anomalies,
      time_range := some
        { start := start_time, end_ := end_time,
          duration_hours := ((end_time - start_time : Int) : Rat) / 3600 } }

end Stats

/-- C4 counterexample: with no ingestion record in range the result is
only the explicit "no data" message — the echoed time range (start, end,
duration) is NOT included, contradicting "always includes the echoed
time range". -/
theorem compute_statistics_no_time_range_on_empty :
    (Stats.compute_statistics (fun _ => ⟨0, 0, 0, 0, 0⟩) [] 0 3600
        ["adr", "anomalies"]).time_range = none
    ∧ (Stats.compute_statistics (fun _ => ⟨0, 0, 0, 0, 0⟩) [] 0 3600
        ["adr", "anomalies"]).message
      = some "No data available for the specified time range" :=
  ⟨rfl, rfl⟩

/-- C4 (amended): whenever at least one ingestion record falls in the
requested range, the result includes the echoed time range with its
duration in hours (and no message); when none does, the result is the
explicit "no data" message alone, without the time range. -/
theorem compute_statistics_time_range (adrSummary : List Rat → Stats.AdrBlock)
    (records : List Stats.StatRecord) (start_time end_time : Int)
    (metrics : List String) :
    (Stats.recordsInRange records start_time end_time ≠ [] →
      (Stats.compute_statistics adrSummary records start_time end_time
          metrics).time_range
        = some
          { start := start_time, end_ := end_time,
            duration_hours := ((end_time - start_time : Int) : Rat) / 3600 }
      ∧ (Stats.compute_statistics adrSummary records start_time end_time
          metrics).message = none)
    ∧ (Stats.recordsInRange records start_time end_time = [] →
      (Stats.compute_statistics adrSummary records start_time end_time
          metrics).message
        = some "No data available for the specified time range"
      ∧ (Stats.compute_statistics adrSummary records start_time end_time
          metrics).time_range = none) := by
  constructor
  · intro hne
    unfold Stats.compute_statistics
    rw [if_neg hne]
    exact ⟨rfl, rfl⟩
  · intro he
    unfold Stats.compute_statistics
    rw [if_pos he]
    exact ⟨rfl, rfl⟩

/-- C4 witness: a single in-range record yields the echoed time range;
an empty store yields the bare no-data message. -/
theorem compute_statistics_time_range_witness :
    ((Stats.compute_statistics (fun _ => ⟨0, 0, 0, 0, 0⟩)
        [⟨100, none, 0, 256⟩] 0 3600 ["anomalies"]).time_range
      = some { start := 0, end_ := 3600, duration_hours := 1 })
    ∧ ((Stats.compute_statistics (fun _ => ⟨0, 0, 0, 0, 0⟩)
        [] 0 3600 ["anomalies"]).message
      = some "No data available for the specified time range") := by
  constructor
  · have h := (compute_statistics_time_range (fun _ => ⟨0, 0, 0, 0, 0⟩)
      [⟨100, none, 0, 256⟩] 0 3600 ["anomalies"]).1 (by decide)
    rw [h.1]
    norm_num
  · exact ((compute_statistics_time_range (fun _ => ⟨0, 0, 0, 0, 0⟩)
      [] 0 3600 ["anomalies"]).2 rfl).1

namespace Workflow

/-- `needle.isPrefixOf hay` on character lists, written out. -/
def listStarts : List Char → List Char → Bool
  | [], _ => true
  | _ :: _, [] => false
  | a :: as, b :: bs => a = b && listStarts as bs

/-- Substring occurrence on character lists. -/
def listHasSub (needle : List Char) : List Char → Bool
  | [] => listStarts needle []
  | c :: cs => listStarts needle (c :: cs) || listHasSub needle cs

/-- Python `needle in hay` for strings. -/
def strContains (hay needle : String) : Bool :=
  listHasSub needle.toList hay.toList

/-- Python `str.lower()` (ASCII, which is all the engine compares),
written as a list map so that it evaluates by kernel reduction. -/
def pyLower (s : String) : String := ⟨s.data.map Char.toLower⟩

/-- The `WorkflowState` TypedDict
(`langraph_workflow_engine/workflow_engine.py` lines 41-50). -/
structure WState where
  ticket_content : String
  customer_tier : String
  urgency : String
  category : String
  assigned_team : String
  escalated : Bool
  resolution_steps : List String
  final_response : String
  processing_log : List String
  deriving DecidableEq, Repr

/-- The initial state built by `process_ticket` (lines 368-378). -/
def initial_state (ticket : String) : WState :=
  ⟨ticket, "", "", "", "", false, [], "", []⟩

/-- Embedding of `analyze_ticket` (lines 158-210).  The LLM reply is the
`analysis_content` input; the node lowercases it and keyword-matches
urgency and category exactly as the source does. -/
def analyze_ticket (analysis_content : String) (st : WState) : WState :=
  let t := pyLower analysis_content
  let urgency :=
    if strContains t "critical" then "critical"
    else if strContains t "high" then "high"
    else if strContains t "medium" then "medium"
    else "low"
  let category :=
    if strContains t "billing" then "billing"
    else if strContains t "technical" || strContains t "bug" then "technical"
    else if strContains t "feature" then "feature_request"
    else "complaint"
  { st with
    urgency := urgency, category := category,
    processing_log := st.processing_log
      ++ ["Analyzed ticket: " ++ urgency ++ " urgency, "
            ++ category ++ " category"] }

/-- Keyword-based tier detection of `determine_customer_tier`
(lines 212-233), checked in dict insertion order. -/
def tierOf (content_lower : String) : String :=
  if strContains content_lower "enterprise"
      || strContains content_lower "business"
      || strContains content_lower "company"
      || strContains content_lower "organization" then "enterprise"
  else if strContains content_lower "pro"
      || strContains content_lower "professional"
      || strContains content_lower "premium" then "pro"
  else if strContains content_lower "basic"
      || strContains content_lower "free"
      || strContains content_lower "trial" then "basic"
  else "basic"

/-- Embedding of `determine_customer_tier` (lines 212-233). -/
def determine_customer_tier (st : WState) : WState :=
  let tier := tierOf (pyLower st.ticket_content)
  { st with
    customer_tier := tier,
    processing_log := st.processing_log ++ ["Customer tier: " ++ tier] }

/-- Embedding of `route_by_urgency` (lines 235-238): log only. -/
def route_by_urgency (st : WState) : WState :=
  { st with
    processing_log := st.processing_log
      ++ ["Routing by urgency: " ++ st.urgency] }

/-- Embedding of `route_urgency_condition` (lines 245-258). -/
def route_urgency_condition (st : WState) : String := st.urgency

/-- Embedding of `assign_team` (lines 260-286). -/
def assign_team (st : WState) : WState :=
  let team0 :=
    if st.category = "billing" then "billing"
    else if st.category = "technical" ∧ st.urgency = "high" then "support_l2"
    else if st.category = "technical" then "support_l1"
    else if st.category = "feature_request" ∧ st.customer_tier = "enterprise"
      then "engineering"
    else "support_l1"
  let team :=
    if st.customer_tier = "enterprise" ∧ team0 = "support_l1"
      then "support_l2" else team0
  { st with
    assigned_team := team,
    processing_log := st.processing_log ++ ["Assigned to team: " ++ team] }

/-- Embedding of `check_escalation` (lines 288-305). -/
def check_escalation (st : WState) : WState :=
  let escalate :=
    (decide (st.urgency = "high") && decide (st.customer_tier = "enterprise"))
    || (decide (st.category = "complaint")
        && strContains (pyLower st.ticket_content) "angry")
  { st with
    escalated := escalate,
    processing_log := st.processing_log
      ++ ["Escalation check: " ++ (if escalate then "True" else "False")] }

/-- Embedding of `escalation_condition` (lines 307-309). -/
def escalation_condition (st : WState) : String :=
  if st.escalated then "escalate" else "continue"

/-- Embedding of `generate_response` (lines 311-332); the LLM reply is
the `response_content` input. -/
def generate_response (response_content : String) (st : WState) : WState :=
  { st with
    final_response := response_content,
    processing_log := st.processing_log ++ ["Generated automated response"] }

/-- Embedding of `escalate_to_human` (lines 334-345); `ref_id` stands
for `hash(ticket_content) % 10000`. -/
def escalate_to_human (ref_id : Nat) (st : WState) : WState :=
  { st with
    final_response := "This ticket has been escalated to our "
      ++ st.assigned_team ++ " team due to its " ++ st.urgency
      ++ " priority level.\n\nA human agent will contact you within 2 hours for "
      ++ st.customer_tier ++ " customers.\n\nReference ID: ESCALATED-"
      ++ toString ref_id,
    processing_log := st.processing_log ++ ["Escalated to human agent"] }

/-- Embedding of `auto_resolve` (lines 347-363). -/
def auto_resolve (st : WState) : WState :=
  let resp :=
    if st.category = "billing" then
      "Please check your account dashboard for billing details. Contact us if you need further assistance."
    else if st.category = "feature_request" then
      "Thank you for your suggestion! We\x27ve added it to our product roadmap for review."
    else if st.category = "technical" then
      "Please try clearing your browser cache and refreshing. If the issue persists, contact our technical team."
    else
      "Thank you for contacting us. Your request has been processed."
  { st with
    final_response := resp, assigned_team := "auto_resolved",
    processing_log := st.processing_log ++ ["Auto-resolved ticket"] }

/-- Which terminal node ended the run. -/
inductive Terminal where
  | escalate_to_human
  | generate_response
  | auto_resolve
  deriving DecidableEq, Repr

/-- The two LLM replies and the Python `hash` value, which are the only
non-deterministic inputs of a run. -/
structure Oracle where
  analysis_content : String
  response_content : String
  ref_id : Nat

/-- A run of the compiled graph (`_build_workflow`, lines 80-148):
analyze → tier → route_by_urgency, then by urgency: critical goes
straight to escalate_to_human; high and medium go to assign_team then
check_escalation, whose flag picks escalate_to_human or
generate_response; low goes to auto_resolve.  An urgency outside the
conditional-edge map would be a LangGraph runtime error, modelled as
`none` (unreachable for states produced by `analyze_ticket`). -/
def run_workflow (oracle : Oracle) (ticket : String) :
    Option (WState × Terminal) :=
  let st1 := analyze_ticket oracle.analysis_content (initial_state ticket)
  let st2 := determine_customer_tier st1
  let st3 := route_by_urgency st2
  if route_urgency_condition st3 = "critical" then
    some (escalate_to_human oracle.ref_id st3, .escalate_to_human)
  else if route_urgency_condition st3 = "high"
      ∨ route_urgency_condition st3 = "medium" then
    let st4 := assign_team st3
    let st5 := check_escalation st4
    if escalation_condition st5 = "escalate" then
      some (escalate_to_human oracle.ref_id st5, .escalate_to_human)
    else
      some (generate_response oracle.response_content st5, .generate_response)
  else if route_urgency_condition st3 = "low" then
    some (auto_resolve st3, .auto_resolve)
  else
    none

/-- `check_escalation` sets the flag exactly per the source's two rules. -/
theorem check_escalation_flag_iff (st : WState) :
    (check_escalation st).escalated = true
      ↔ ((st.urgency = "high" ∧ st.customer_tier = "enterprise")
        ∨ (st.category = "complaint"
          ∧ strContains (pyLower st.ticket_content) "angry" = true)) := by
  simp [check_escalation]

/-- The urgency consulted by the router is the one set by `analyze_ticket`. -/
theorem urgency_pipeline (a t : String) :
    route_urgency_condition
      (route_by_urgency (determine_customer_tier
        (analyze_ticket a (initial_state t))))
    = (analyze_ticket a (initial_state t)).urgency := rfl

end Workflow

/-- C5 counterexample: a ticket analyzed as a low-urgency complaint and
containing "angry" is routed to auto_resolve and ends NOT escalated —
the claim "escalated regardless of tier and urgency" fails, because the
urgency router sends low-urgency tickets past check_escalation. -/
theorem angry_complaint_not_escalated_counterexample :
    ((Workflow.run_workflow ⟨"the customer seems upset", "resp", 0⟩
        "I am angry about this").map
      (fun p => (p.2, p.1.escalated, p.1.category)))
      = some (Workflow.Terminal.auto_resolve, false, "complaint")
    ∧ Workflow.strContains (Workflow.pyLower "I am angry about this") "angry"
        = true := ⟨by decide, by decide⟩

/-- C5 (amended): for a ticket whose analyzed urgency is high or medium
and whose analyzed category is "complaint" with "angry" in the
lower-cased text, the workflow ends at escalate_to_human with the
escalated flag set, regardless of customer tier (critical urgency is
routed to a human directly; low urgency bypasses the check); and
check_escalation sets the flag true exactly when (urgency = "high" and
tier = "enterprise") or (category = "complaint" and "angry" occurs in
the lower-cased ticket text). -/
theorem workflow_escalation (o : Workflow.Oracle) (ticket : String)
    (hu : (Workflow.analyze_ticket o.analysis_content
        (Workflow.initial_state ticket)).urgency = "high"
      ∨ (Workflow.analyze_ticket o.analysis_content
        (Workflow.initial_state ticket)).urgency = "medium")
    (hcat : (Workflow.analyze_ticket o.analysis_content
        (Workflow.initial_state ticket)).category = "complaint")
    (hangry : Workflow.strContains (Workflow.pyLower ticket) "angry" = true) :
    (∃ st, Workflow.run_workflow o ticket
        = some (st, Workflow.Terminal.escalate_to_human)
      ∧ st.escalated = true)
    ∧ (∀ st : Workflow.WState, (Workflow.check_escalation st).escalated = true
        ↔ ((st.urgency = "high" ∧ st.customer_tier = "enterprise")
          ∨ (st.category = "complaint"
            ∧ Workflow.strContains (Workflow.pyLower st.ticket_content)
                "angry" = true))) := by
  refine ⟨?_, fun st => Workflow.check_escalation_flag_iff st⟩
  have hflag : (Workflow.check_escalation (Workflow.assign_team
      (Workflow.route_by_urgency (Workflow.determine_customer_tier
        (Workflow.analyze_ticket o.analysis_content
          (Workflow.initial_state ticket)))))).escalated = true :=
    (Workflow.check_escalation_flag_iff _).mpr (Or.inr ⟨hcat, hangry⟩)
  have hesc : Workflow.escalation_condition (Workflow.check_escalation
      (Workflow.assign_team (Workflow.route_by_urgency
        (Workflow.determine_customer_tier (Workflow.analyze_ticket
          o.analysis_content (Workflow.initial_state ticket))))))
      = "escalate" := by
    unfold Workflow.escalation_condition
    rw [hflag]
    rfl
  refine ⟨Workflow.escalate_to_human o.ref_id (Workflow.check_escalation
    (Workflow.assign_team (Workflow.route_by_urgency
      (Workflow.determine_customer_tier (Workflow.analyze_ticket
        o.analysis_content (Workflow.initial_state ticket)))))), ?_, hflag⟩
  simp only [Workflow.run_workflow, Workflow.urgency_pipeline]
  rcases hu with hu | hu
  · simp only [hu]
    rw [if_neg (by decide : ¬ ("high" : String) = "critical"),
      if_pos (Or.inl trivial), if_pos hesc]
  · simp only [hu]
    rw [if_neg (by decide : ¬ ("medium" : String) = "critical"),
      if_pos (Or.inr trivial), if_pos hesc]

/-- C5 witness: an analysis reading "high" with an angry complaint
ticket ends escalated to a human with the flag set. -/
theorem workflow_escalation_witness :
    ∃ st, Workflow.run_workflow ⟨"high", "resp", 0⟩ "I am angry"
        = some (st, Workflow.Terminal.escalate_to_human)
      ∧ st.escalated = true :=
  (workflow_escalation ⟨"high", "resp", 0⟩ "I am angry"
    (Or.inl rfl) rfl rfl).1

namespace VectorStore

/-- A primitive metadata value (`multimodal-rag/agents/vector_store.py`
lines 36-41 treat str/int/float/bool via `str(...)` and everything else
via `json.dumps`; the model covers the str/int/bool primitives the
round-trip property is about — floats are floating point). -/
inductive MetaVal where
  | mstr : String → MetaVal
  | mint : Int → MetaVal
  | mbool : Bool → MetaVal
  deriving DecidableEq, Repr

/-- Decimal digits of `n`, most significant first, via structural fuel
(`fuel > n` suffices). -/
def natDigitsAux : Nat → Nat → List Char
  | 0, _ => []
  | fuel + 1, n =>
      if n < 10 then [Nat.digitChar n]
      else natDigitsAux fuel (n / 10) ++ [Nat.digitChar (n % 10)]

/-- Canonical decimal digits of a natural number. -/
def natDigits (n : Nat) : List Char := natDigitsAux (n + 1) n

/-- Python `str(int)`: canonical decimal, `-` sign for negatives. -/
def intToString (n : Int) : String :=
  if n < 0 then "-" ++ String.mk (natDigits (-n).toNat)
  else String.mk (natDigits n.toNat)

/-- Python `str(value)` on a primitive metadata valueset; note
`str(True) = "True"` and `str(False) = "False"`. -/
def pyStr : MetaVal → String
  | .mstr s => s
  | .mint n => intToString n
  | .mbool b => if b then "True" else "False"

def digitVal (c : Char) : Nat := c.toNat - 48

def digitsToNat (cs : List Char) : Nat :=
  cs.foldl (fun a c => 10 * a + digitVal c) 0

/-- A JSON natural-number literal: nonempty digits, no leading zero. -/
def isNatLit (cs : List Char) : Bool :=
  !cs.isEmpty && cs.all (fun c => decide ('0' ≤ c) && decide (c ≤ '9'))
    && (cs == ['0'] || !(cs.head? == some '0'))

/-- A JSON integer literal: optional minus sign then a natural literal. -/
def isIntLit (s : String) : Bool :=
  match s.data with
  | c :: rest => if c = '-' then isNatLit rest else isNatLit (c :: rest)
  | [] => false

def parseIntLit (s : String) : Int :=
  match s.data with
  | c :: rest =>
      if c = '-' then -(digitsToNat rest : Int)
      else (digitsToNat (c :: rest) : Int)
  | [] => 0

/-- Partial model of Python `json.loads` on metadata strings: exact on
the literals `true`/`false` and on integer literals; every other input
is conservatively reported unparseable (`none`).  The theorems below
invoke it only where this is faithful: on canonical `str(int)` output,
on `"True"`/`"False"`, and on strings rejected by `jsonUnparseable`,
where real `json.loads` raises as well. -/
def jsonLoads (s : String) : Option MetaVal :=
  if s = "true" then some (.mbool true)
  else if s = "false" then some (.mbool false)
  else if isIntLit s then some (.mint (parseIntLit s))
  else none

/-- Characters that can begin a value accepted by Python `json.loads`
(after whitespace): objects, arrays, strings, numbers, the literals
true/false/null, and the non-standard constants NaN and Infinity that
`json.loads` accepts by default (`-Infinity` begins with `-`). -/
def jsonStartChar (c : Char) : Bool :=
  (decide ('0' ≤ c) && decide (c ≤ '9')) || c = '-' || c = '"'
    || c = '\x7b' || c = '[' || c = 't' || c = 'f' || c = 'n'
    || c = 'N' || c = 'I'

/-- `true` only when `json.loads` on this string must raise: after
stripping leading whitespace no accepted value — standard JSON or the
default-enabled NaN/Infinity constants — can start (or the string is
empty). -/
def jsonUnparseable (s : String) : Bool :=
  match s.data.dropWhile (fun c => c.isWhitespace) with
  | [] => true
  | c :: _ => !(jsonStartChar c)

/-- The metadata read-back of `get_document`/`search`/`list_documents`
(`vector_store.py` lines 169-175): try `json.loads`, keep the string on
failure. -/
def decodeVal (s : String) : MetaVal := (jsonLoads s).getD (.mstr s)

/-- The metadata write coercion of `add_document` (lines 36-41). -/
def encodeMeta (meta : List (String × MetaVal)) : List (String × String) :=
  meta.map (fun p => (p.1, pyStr p.2))

def decodeMeta (m : List (String × String)) : List (String × MetaVal) :=
  m.map (fun p => (p.1, decodeVal p.2))

/-- A document as stored in the ChromaDB collection: id, content, and
string-coerced metadata. -/
structure StoredDoc where
  id : String
  content : String
  metadata : List (String × String)
  deriving DecidableEq, Repr

/-- The collection, in insertion order. -/
abbrev Store := List StoredDoc

def findDoc (store : Store) (doc_id : String) : Option StoredDoc :=
  store.find? (fun d => d.id = doc_id)

/-- Embedding of `VectorStore.add_document` (lines 26-56) for a caller-
supplied id: coerce the metadata and add to the collection. -/
def add_document (store : Store) (content : String)
    (metadata : List (String × MetaVal)) (doc_id : String) : Store :=
  store ++ [⟨doc_id, content, encodeMeta metadata⟩]

/-- A document as returned to callers, with decoded metadata. -/
structure DocResult where
  id : String
  content : String
  metadata : List (String × MetaVal)
  deriving DecidableEq, Repr

/-- Embedding of `VectorStore.get_document` (lines 160-186). -/
def get_document (store : Store) (doc_id : String) : Option DocResult :=
  match findDoc store doc_id with
  | none => none
  | some d => some ⟨doc_id, d.content, decodeMeta d.metadata⟩

/-- Embedding of `VectorStore.delete_document` (lines 150-158). -/
def delete_document (store : Store) (doc_id : String) : Store :=
  store.filter (fun d => d.id ≠ doc_id)

/-- Embedding of `VectorStore.list_documents` (lines 188-217): first
`limit` documents, content truncated to 200 characters plus "...". -/
def list_documents (store : Store) (limit : Nat) : List DocResult :=
  (store.take limit).map (fun d =>
    ⟨d.id,
     if 200 < d.content.length
       then String.mk (d.content.data.take 200) ++ "..."
       else d.content,
     decodeMeta d.metadata⟩)

end VectorStore

namespace VectorStore

theorem digitVal_digitChar : ∀ m, m < 10 → digitVal (Nat.digitChar m) = m := by
  decide

theorem digit_pred_digitChar :
    ∀ m, m < 10 →
      (decide ('0' ≤ Nat.digitChar m) && decide (Nat.digitChar m ≤ '9'))
        = true := by
  decide

theorem digitsToNat_append_one (cs : List Char) (c : Char) :
    digitsToNat (cs ++ [c]) = 10 * digitsToNat cs + digitVal c := by
  simp [digitsToNat, List.foldl_append]

theorem digitsToNat_natDigitsAux :
    ∀ fuel n, n < fuel → digitsToNat (natDigitsAux fuel n) = n := by
  intro fuel
  induction fuel with
  | zero => intro n h; exact absurd h (Nat.not_lt_zero n)
  | succ fuel ih =>
    intro n h
    unfold natDigitsAux
    by_cases h10 : n < 10
    · rw [if_pos h10]
      simp only [digitsToNat, List.foldl_cons, List.foldl_nil]
      rw [Nat.mul_zero, Nat.zero_add]
      exact digitVal_digitChar n h10
    · rw [if_neg h10]
      have hdivlt : n / 10 < n := Nat.div_lt_self (by omega) (by norm_num)
      have hdiv : n / 10 < fuel := by omega
      rw [digitsToNat_append_one, ih _ hdiv,
        digitVal_digitChar _ (Nat.mod_lt n (by norm_num))]
      omega

theorem natDigitsAux_all_digits :
    ∀ fuel n, n < fuel →
      (natDigitsAux fuel n).all
        (fun c => decide ('0' ≤ c) && decide (c ≤ '9')) = true := by
  intro fuel
  induction fuel with
  | zero => intro n h; exact absurd h (Nat.not_lt_zero n)
  | succ fuel ih =>
    intro n h
    unfold natDigitsAux
    by_cases h10 : n < 10
    · rw [if_pos h10]
      simp only [List.all_cons, List.all_nil, Bool.and_true]
      exact digit_pred_digitChar n h10
    · rw [if_neg h10]
      have hdivlt : n / 10 < n := Nat.div_lt_self (by omega) (by norm_num)
      rw [List.all_append]
      rw [ih _ (by omega)]
      simp only [List.all_cons, List.all_nil, Bool.and_true, Bool.true_and]
      exact digit_pred_digitChar _ (Nat.mod_lt n (by norm_num))

theorem natDigitsAux_ne_nil :
    ∀ fuel n, n < fuel → natDigitsAux fuel n ≠ [] := by
  intro fuel
  induction fuel with
  | zero => intro n h; exact absurd h (Nat.not_lt_zero n)
  | succ fuel _ =>
    intro n _
    unfold natDigitsAux
    by_cases h10 : n < 10
    · rw [if_pos h10]; simp
    · rw [if_neg h10]; simp

theorem natDigitsAux_head_ne_zero :
    ∀ fuel n, n < fuel → 1 ≤ n →
      (natDigitsAux fuel n).head? ≠ some '0' := by
  intro fuel
  induction fuel with
  | zero => intro n h; exact absurd h (Nat.not_lt_zero n)
  | succ fuel ih =>
    intro n h h1
    unfold natDigitsAux
    by_cases h10 : n < 10
    · rw [if_pos h10]
      have : ∀ m, 1 ≤ m → m < 10 → Nat.digitChar m ≠ '0' := by decide
      simp only [List.head?_cons, ne_eq, Option.some.injEq]
      exact this n h1 h10
    · rw [if_neg h10]
      have hdivlt : n / 10 < n := Nat.div_lt_self (by omega) (by norm_num)
      have hge : 1 ≤ n / 10 := by omega
      cases hxs : natDigitsAux fuel (n / 10) with
      | nil => exact absurd hxs (natDigitsAux_ne_nil fuel (n / 10) (by omega))
      | cons a as =>
        have := ih (n / 10) (by omega) hge
        rw [hxs] at this
        simpa using this

end VectorStore

namespace VectorStore

theorem digitsToNat_natDigits (n : Nat) : digitsToNat (natDigits n) = n :=
  digitsToNat_natDigitsAux (n + 1) n (Nat.lt_succ_self n)

theorem isNatLit_natDigits (n : Nat) : isNatLit (natDigits n) = true := by
  by_cases h0 : n = 0
  · subst h0; decide
  · have hne := natDigitsAux_ne_nil (n + 1) n (Nat.lt_succ_self n)
    have hall := natDigitsAux_all_digits (n + 1) n (Nat.lt_succ_self n)
    have hhead := natDigitsAux_head_ne_zero (n + 1) n (Nat.lt_succ_self n)
      (by omega)
    unfold isNatLit natDigits
    have hie : (natDigitsAux (n + 1) n).isEmpty = false := by
      cases hxs : natDigitsAux (n + 1) n with
      | nil => exact absurd hxs hne
      | cons a as => rfl
    rw [hall, hie]
    simp [beq_eq_false_iff_ne.mpr hhead]

theorem natDigits_cons (m : Nat) : ∃ c cs, natDigits m = c :: cs := by
  cases hxs : natDigits m with
  | nil =>
      exact absurd hxs (natDigitsAux_ne_nil (m + 1) m (Nat.lt_succ_self m))
  | cons a as => exact ⟨a, as, rfl⟩

theorem isIntLit_mk_natDigits (m : Nat) :
    isIntLit (String.mk (natDigits m)) = true := by
  obtain ⟨c, cs, hnd⟩ := natDigits_cons m
  have hall : (natDigits m).all
      (fun c => decide ('0' ≤ c) && decide (c ≤ '9')) = true :=
    natDigitsAux_all_digits (m + 1) m (Nat.lt_succ_self m)
  rw [hnd] at hall
  simp only [List.all_cons, Bool.and_eq_true, decide_eq_true_eq] at hall
  have hc0 : '0' ≤ c := hall.1.1
  have hcm : c ≠ '-' := by
    intro he; subst he; exact absurd hc0 (by decide)
  have h' : isIntLit (String.mk (natDigits m))
      = (if c = '-' then isNatLit cs else isNatLit (c :: cs)) := by
    unfold isIntLit
    rw [show (String.mk (natDigits m)).data = natDigits m from rfl, hnd]
  rw [h', if_neg hcm, ← hnd]
  exact isNatLit_natDigits m

theorem parseIntLit_mk_natDigits (m : Nat) :
    parseIntLit (String.mk (natDigits m)) = (m : Int) := by
  obtain ⟨c, cs, hnd⟩ := natDigits_cons m
  have hall : (natDigits m).all
      (fun c => decide ('0' ≤ c) && decide (c ≤ '9')) = true :=
    natDigitsAux_all_digits (m + 1) m (Nat.lt_succ_self m)
  rw [hnd] at hall
  simp only [List.all_cons, Bool.and_eq_true, decide_eq_true_eq] at hall
  have hc0 : '0' ≤ c := hall.1.1
  have hcm : c ≠ '-' := by
    intro he; subst he; exact absurd hc0 (by decide)
  have h' : parseIntLit (String.mk (natDigits m))
      = (if c = '-' then -(digitsToNat cs : Int)
          else (digitsToNat (c :: cs) : Int)) := by
    unfold parseIntLit
    rw [show (String.mk (natDigits m)).data = natDigits m from rfl, hnd]
  rw [h', if_neg hcm, ← hnd, digitsToNat_natDigits m]

theorem isIntLit_neg_mk (m : Nat) :
    isIntLit ("-" ++ String.mk (natDigits (m + 1))) = true := by
  have h' : isIntLit ("-" ++ String.mk (natDigits (m + 1)))
      = isNatLit (natDigits (m + 1)) := rfl
  rw [h']
  exact isNatLit_natDigits (m + 1)

theorem parseIntLit_neg_mk (m : Nat) :
    parseIntLit ("-" ++ String.mk (natDigits (m + 1)))
      = -((m + 1 : Nat) : Int) := by
  have h' : parseIntLit ("-" ++ String.mk (natDigits (m + 1)))
      = -(digitsToNat (natDigits (m + 1)) : Int) := rfl
  rw [h', digitsToNat_natDigits (m + 1)]

theorem jsonLoads_intToString (n : Int) :
    jsonLoads (intToString n) = some (.mint n) := by
  cases n with
  | ofNat m =>
    have hs : intToString (Int.ofNat m) = String.mk (natDigits m) := by
      unfold intToString
      rw [if_neg (show ¬ (Int.ofNat m < 0) from
        not_lt.mpr (Int.ofNat_nonneg m))]
      rfl
    rw [hs]
    have hlit := isIntLit_mk_natDigits m
    have hne1 : String.mk (natDigits m) ≠ "true" := by
      intro he; rw [he] at hlit; exact absurd hlit (by decide)
    have hne2 : String.mk (natDigits m) ≠ "false" := by
      intro he; rw [he] at hlit; exact absurd hlit (by decide)
    unfold jsonLoads
    rw [if_neg hne1, if_neg hne2, if_pos hlit, parseIntLit_mk_natDigits]
    rfl
  | negSucc m =>
    have hs : intToString (Int.negSucc m)
        = "-" ++ String.mk (natDigits (m + 1)) := by
      unfold intToString
      rw [if_pos (Int.negSucc_lt_zero m), Int.neg_negSucc, Int.toNat_ofNat]
    rw [hs]
    have hlit := isIntLit_neg_mk m
    have hne1 : "-" ++ String.mk (natDigits (m + 1)) ≠ "true" := by
      intro he; rw [he] at hlit; exact absurd hlit (by decide)
    have hne2 : "-" ++ String.mk (natDigits (m + 1)) ≠ "false" := by
      intro he; rw [he] at hlit; exact absurd hlit (by decide)
    have harg : -((m + 1 : Nat) : Int) = Int.negSucc m := by
      simp [Int.negSucc_eq]
    unfold jsonLoads
    rw [if_neg hne1, if_neg hne2, if_pos hlit, parseIntLit_neg_mk, harg]

end VectorStore

namespace VectorStore

theorem isIntLit_not_unparseable (s : String) (h : isIntLit s = true) :
    jsonUnparseable s = false := by
  unfold jsonUnparseable
  cases hd : s.data with
  | nil =>
      exfalso
      unfold isIntLit at h
      rw [hd] at h
      exact Bool.false_ne_true h
  | cons c rest =>
    have h' : (if c = '-' then isNatLit rest else isNatLit (c :: rest))
        = true := by
      unfold isIntLit at h
      rw [hd] at h
      exact h
    by_cases hcm : c = '-'
    · subst hcm
      have hws : ('-' : Char).isWhitespace = false := by decide
      have hstart : jsonStartChar '-' = true := by decide
      simp [List.dropWhile_cons, hws, hstart]
    · rw [if_neg hcm] at h'
      unfold isNatLit at h'
      simp only [List.all_cons, Bool.and_eq_true, decide_eq_true_eq] at h'
      have hc0 : '0' ≤ c := h'.1.2.1.1
      have hc9 : c ≤ '9' := h'.1.2.1.2
      have hws : c.isWhitespace = false := by
        cases hcw : c.isWhitespace
        · rfl
        · exfalso
          simp only [Char.isWhitespace, Bool.or_eq_true, decide_eq_true_eq]
            at hcw
          rcases hcw with ((hc | hc) | hc) | hc <;> subst hc <;>
            exact absurd hc0 (by decide)
      have hstart : jsonStartChar c = true := by
        unfold jsonStartChar
        rw [decide_eq_true hc0, decide_eq_true hc9]
        rfl
      simp [List.dropWhile_cons, hws, hstart]

theorem jsonLoads_of_unparseable (s : String)
    (h : jsonUnparseable s = true) : jsonLoads s = none := by
  have hne1 : s ≠ "true" := by
    intro he; subst he; exact absurd h (by decide)
  have hne2 : s ≠ "false" := by
    intro he; subst he; exact absurd h (by decide)
  have hlit : isIntLit s = false := by
    cases hl : isIntLit s
    · rfl
    · rw [isIntLit_not_unparseable s hl] at h
      exact absurd h Bool.false_ne_true
  unfold jsonLoads
  rw [if_neg hne1, if_neg hne2]
  simp [hlit]

theorem decodeVal_pyStr_mint (n : Int) :
    decodeVal (pyStr (.mint n)) = .mint n := by
  show (jsonLoads (intToString n)).getD (.mstr (intToString n)) = .mint n
  rw [jsonLoads_intToString]
  rfl

theorem decodeVal_pyStr_mbool (b : Bool) :
    decodeVal (pyStr (.mbool b))
      = .mstr (if b then "True" else "False") := by
  cases b <;> decide

theorem decodeVal_pyStr_mstr (s : String) (h : jsonUnparseable s = true) :
    decodeVal (pyStr (.mstr s)) = .mstr s := by
  show (jsonLoads s).getD (.mstr s) = .mstr s
  rw [jsonLoads_of_unparseable s h]
  rfl

theorem find?_append_none {α : Type} (p : α → Bool) (l1 l2 : List α)
    (h : l1.find? p = none) : (l1 ++ l2).find? p = l2.find? p := by
  induction l1 with
  | nil => simp
  | cons hd tl ih =>
    rw [List.cons_append]
    cases hph : p hd
    · rw [List.find?_cons_of_neg _ (by simp [hph])]
      rw [List.find?_cons_of_neg _ (by simp [hph])] at h
      exact ih h
    · rw [List.find?_cons_of_pos _ hph] at h
      exact absurd h (by simp)

theorem findDoc_add_self (store : Store) (content : String)
    (meta : List (String × MetaVal)) (doc_id : String)
    (hfresh : findDoc store doc_id = none) :
    findDoc (add_document store content meta doc_id) doc_id
      = some ⟨doc_id, content, encodeMeta meta⟩ := by
  unfold add_document findDoc
  rw [find?_append_none _ _ _ hfresh]
  simp [List.find?]

theorem findDoc_filter_ne (store : Store) (doc_id : String) :
    findDoc (store.filter (fun d => d.id ≠ doc_id)) doc_id = none := by
  unfold findDoc
  apply List.find?_eq_none.mpr
  intro d hdmem
  have hne := (List.mem_filter.mp hdmem).2
  simp only [decide_eq_true_eq] at hne
  simp [hne]

end VectorStore

/-- C6 counterexample: a boolean metadata value does not survive the
round-trip — `str(True)` is `"True"`, which `json.loads` cannot parse,
so get_document returns the string "True", not the boolean. -/
theorem vector_store_bool_metadata_counterexample :
    VectorStore.get_document
        (VectorStore.add_document [] "scan" [("flag", .mbool true)] "d1") "d1"
      = some ⟨"d1", "scan", [("flag", .mstr "True")]⟩
    ∧ VectorStore.MetaVal.mstr "True" ≠ VectorStore.MetaVal.mbool true :=
  ⟨by decide, by decide⟩

/-- C6 (amended): add-then-get returns the same content and the
metadata as transformed by the store/string/JSON round-trip — integers
come back unchanged, booleans come back as the strings "True"/"False",
and strings that cannot start a JSON value come back unchanged — and
delete-then-get returns absent, with the document also gone from
list_documents. -/
theorem vector_store_round_trip (store : VectorStore.Store)
    (content : String) (meta : List (String × VectorStore.MetaVal))
    (doc_id : String) (limit : Nat)
    (hfresh : VectorStore.findDoc store doc_id = none) :
    (VectorStore.get_document
        (VectorStore.add_document store content meta doc_id) doc_id
      = some ⟨doc_id, content,
          VectorStore.decodeMeta (VectorStore.encodeMeta meta)⟩)
    ∧ (∀ n : Int, VectorStore.decodeVal (VectorStore.pyStr (.mint n))
        = .mint n)
    ∧ (∀ b : Bool, VectorStore.decodeVal (VectorStore.pyStr (.mbool b))
        = .mstr (if b then "True" else "False"))
    ∧ (∀ s : String, VectorStore.jsonUnparseable s = true →
        VectorStore.decodeVal (VectorStore.pyStr (.mstr s)) = .mstr s)
    ∧ (VectorStore.get_document
        (VectorStore.delete_document
          (VectorStore.add_document store content meta doc_id) doc_id)
        doc_id = none)
    ∧ (∀ d ∈ VectorStore.list_documents
          (VectorStore.delete_document
            (VectorStore.add_document store content meta doc_id) doc_id)
          limit,
        d.id ≠ doc_id) := by
  refine ⟨?_, VectorStore.decodeVal_pyStr_mint,
    VectorStore.decodeVal_pyStr_mbool, VectorStore.decodeVal_pyStr_mstr,
    ?_, ?_⟩
  · unfold VectorStore.get_document
    rw [VectorStore.findDoc_add_self store content meta doc_id hfresh]
  · unfold VectorStore.get_document VectorStore.delete_document
    rw [VectorStore.findDoc_filter_ne]
  · intro d hd
    unfold VectorStore.list_documents at hd
    obtain ⟨orig, horig, heq⟩ := List.mem_map.mp hd
    have h2 : orig ∈ VectorStore.delete_document
        (VectorStore.add_document store content meta doc_id) doc_id :=
      List.take_subset _ _ horig
    unfold VectorStore.delete_document at h2
    have h3 := (List.mem_filter.mp h2).2
    simp only [decide_eq_true_eq] at h3
    subst heq
    exact h3

/-- C6 witness: a fresh integer-metadata document round-trips with its
content, and the integer value is recovered exactly. -/
theorem vector_store_round_trip_witness :
    (VectorStore.get_document
        (VectorStore.add_document [] "report" [("k", .mint 42)] "d1") "d1"
      = some ⟨"d1", "report",
          VectorStore.decodeMeta (VectorStore.encodeMeta [("k", .mint 42)])⟩)
    ∧ VectorStore.decodeVal (VectorStore.pyStr (.mint 42)) = .mint 42 :=
  ⟨(vector_store_round_trip [] "report" [("k", .mint 42)] "d1" 100 rfl).1,
   (vector_store_round_trip [] "report" [("k", .mint 42)] "d1" 100
      rfl).2.1 42⟩

namespace EEG

/-- `int(prevalence * n_times)` with `prevalence = 0.05`
(`EEG-YCombinator/utils.py` line 116), modelled exactly as `5*n/100`;
the float product agrees with this at the inputs used below. -/
def total_ones (n_times : Nat) : Nat := 5 * n_times / 100

/-- `min_run_length` (line 113). -/
def min_run_length : Nat := 10

/-- `n_runs = max(1, total_ones // min_run_length)` (line 117). -/
def n_runs (n_times : Nat) : Nat :=
  max 1 (total_ones n_times / min_run_length)

/-- `possible_starts = np.arange(0, n_times - run_length + 1)` (line 123). -/
def possible_starts (n_times : Nat) : List Nat :=
  List.range (n_times - min_run_length + 1)

/-- The draw `np.random.choice(possible_starts, size=n_runs,
replace=False)` (lines 124-126): any list of DISTINCT members of
`possible_starts` of the clamped size is a possible outcome —
`replace=False` ensures distinctness of the starts only, not
non-overlap of the length-10 runs they induce. -/
def validStarts (n_times : Nat) (starts : List Nat) : Prop :=
  starts.Nodup ∧ (∀ s ∈ starts, s ∈ possible_starts n_times)
    ∧ starts.length = min (n_runs n_times) (possible_starts n_times).length

instance (n_times : Nat) (starts : List Nat) :
    Decidable (validStarts n_times starts) := by
  unfold validStarts
  infer_instance

/-- Column `t` of the mask written by the loop
`mask[:, start:start+run_length] = 1.0` (lines 128-129); every channel
row receives the same value, so the mask is a function of `t` alone. -/
def maskAt (starts : List Nat) (t : Nat) : Bool :=
  starts.any (fun s => decide (s ≤ t) && decide (t < s + min_run_length))

/-- The full `model_binary_example` mask for a given draw, as a function
of channel and time. -/
def model_binary_example_mask (starts : List Nat) (_channel t : Nat) :
    Bool :=
  maskAt starts t

/-- Number of 1-columns among the `n_times` columns. -/
def maskOnes (starts : List Nat) (n_times : Nat) : Nat :=
  ((List.range n_times).filter (fun t => maskAt starts t)).length

end EEG

/-- C1 (code bug evidence): for a 21×400 input, `np.random.choice` may
draw the distinct starts {0, 5} — a valid outcome of the code's
sampling — whose length-10 runs overlap: columns 0..14 are a single
contiguous block of fifteen 1s (and column 15 is 0), so the mask does
NOT consist of non-overlapping runs of exactly 10, and it has 15 ones
per channel instead of n_runs·10 = 20, contradicting the code's own
comment "ensuring they don't overlap" and the spec. -/
theorem model_binary_example_overlapping_runs :
    EEG.validStarts 400 [0, 5]
    ∧ ((List.range 15).all
        (fun t => EEG.model_binary_example_mask [0, 5] 0 t)) = true
    ∧ EEG.model_binary_example_mask [0, 5] 0 15 = false
    ∧ EEG.maskOnes [0, 5] 400 = 15
    ∧ EEG.n_runs 400 = 2
    ∧ 15 ≠ EEG.n_runs 400 * EEG.min_run_length := by
  set_option maxRecDepth 10000 in decide
